import Mathlib

/-!
Verification of the `env!` inline-macro expansion pipeline
(`crates/env_macro/src/lib.rs`).

The pipeline is shallowly embedded: the process environment is a function
`String → Option String`, the parsed argument list is a `List ArgClause`,
token streams are `String`s, and the host libraries' numeric routines
(num-bigint's `from_str_radix` / `to_string`, cairo-lang-syntax's
`numeric_value`) are translated function by function.
-/

namespace EnvMacro

/-- Diagnostic severity (`cairo_lang_macro::Severity`); the macro only ever
emits errors. -/
inductive Severity where
  | error
  | warning
deriving DecidableEq, Repr

/-- A compiler diagnostic: severity plus message (`cairo_lang_macro::Diagnostic`). -/
structure Diagnostic where
  severity : Severity
  message : String
deriving DecidableEq, Repr

/-- `Diagnostic::error(msg)` constructs an error-severity diagnostic. -/
def Diagnostic.error (msg : String) : Diagnostic :=
  ⟨Severity.error, msg⟩

/-- `ProcMacroResult`: the token stream handed back to the host compiler plus
the attached diagnostics. -/
structure ProcMacroResult where
  token_stream : String
  diagnostics : List Diagnostic
deriving DecidableEq, Repr

/-- Digit value of a character, as in num-bigint's `from_str_radix` byte
loop: `0`-`9`, then letters (either case) as 10..35, everything else an
out-of-range marker (`u8::MAX`). -/
def digitVal (c : Char) : Nat :=
  if '0' ≤ c ∧ c ≤ '9' then c.toNat - '0'.toNat
  else if 'a' ≤ c ∧ c ≤ 'z' then c.toNat - 'a'.toNat + 10
  else if 'A' ≤ c ∧ c ≤ 'Z' then c.toNat - 'A'.toNat + 10
  else 255

/-- The digit-accumulation loop of num-bigint's `BigUint::from_str_radix`:
underscores between digits are skipped, any digit value `≥ radix` (or a
non-alphanumeric byte) aborts the parse. -/
def fromStrDigitsAux (radix : Nat) : List Char → Nat → Option Nat
  | [], acc => some acc
  | c :: rest, acc =>
    if c = '_' then fromStrDigitsAux radix rest acc
    else if digitVal c < radix then fromStrDigitsAux radix rest (acc * radix + digitVal c)
    else none

/-- num-bigint strips one leading `+` unless it is followed by another `+`. -/
def stripOnePlus (s : List Char) : List Char :=
  match s with
  | '+' :: tail => if tail.head? = some '+' then '+' :: tail else tail
  | s => s

/-- `BigUint::from_str_radix`: strip a single `+`, reject the empty string
and a leading underscore, then run the digit loop. -/
def biguint_from_str_radix (s : List Char) (radix : Nat) : Option Nat :=
  let s := stripOnePlus s
  if s.isEmpty then none
  else if s.head? = some '_' then none
  else fromStrDigitsAux radix s 0

/-- `BigInt::from_str_radix`: a leading `-` (not followed by `+`) makes the
magnitude negative; the rest is `BigUint::from_str_radix`. -/
def bigint_from_str_radix (s : List Char) (radix : Nat) : Option Int :=
  match s with
  | '-' :: tail =>
    let s' := if tail.head? = some '+' then '-' :: tail else tail
    (biguint_from_str_radix s' radix).map (fun m => -(m : Int))
  | s => (biguint_from_str_radix s radix).map (fun m => (m : Int))

/-- `BigInt::from_str` (via the `FromStr` impl) is radix-10 parsing. -/
def bigint_from_str (s : String) : Option Int :=
  bigint_from_str_radix s.data 10

/-- Fuel-driven decimal digit printer, the little loop behind big-integer
`to_string`: peel the low digit with `% 10` and recurse on `/ 10`. -/
def natDigitsAux : Nat → Nat → List Char → List Char
  | 0, _, acc => acc
  | fuel + 1, n, acc =>
    if n < 10 then Nat.digitChar n :: acc
    else natDigitsAux fuel (n / 10) (Nat.digitChar (n % 10) :: acc)

/-- Decimal digit string of a natural number (enough fuel to finish). -/
def natDecimal (n : Nat) : List Char :=
  natDigitsAux (n + 1) n []

/-- `BigInt`'s `Display`/`to_string`: a `-` sign exactly when negative,
then the magnitude's decimal digits. -/
def bigint_to_string (n : Int) : String :=
  if n < 0 then String.mk ('-' :: natDecimal n.natAbs)
  else String.mk (natDecimal n.natAbs)

/-- `str::split_once('_')`: split at the first underscore, if any. -/
def splitOnceUnderscore : List Char → Option (List Char × List Char)
  | [] => none
  | c :: rest =>
    if c = '_' then some ([], rest)
    else (splitOnceUnderscore rest).map (fun p => (c :: p.1, p.2))

/-- `TerminalLiteralNumber::numeric_value` from cairo-lang-syntax: drop a
`_suffix`, recognise a `0x`/`0o`/`0b` radix marker, and parse the remaining
text with `BigInt::from_str_radix` in that radix (10 by default). -/
def numeric_value (text : String) : Option Int :=
  let t := match splitOnceUnderscore text.data with
    | some p => p.1
    | none => text.data
  let tr : List Char × Nat :=
    match t with
    | '0' :: 'x' :: rest => (rest, 16)
    | '0' :: 'o' :: rest => (rest, 8)
    | '0' :: 'b' :: rest => (rest, 2)
    | t => (t, 10)
  bigint_from_str_radix tr.1 tr.2

/-- The expression variants the macro distinguishes: a string literal
(carrying the decoded text that `string_value` returns, when it succeeds),
a numeric literal (carrying its token text), or anything else. -/
inductive Expr where
  | strLit (value : Option String)
  | numLit (text : String)
  | other
deriving DecidableEq, Repr

/-- Is the expression the string-literal variant? -/
def Expr.isStrLit : Expr → Bool
  | Expr.strLit _ => true
  | _ => false

/-- Is the expression the numeric-literal variant? -/
def Expr.isNumLit : Expr → Bool
  | Expr.numLit _ => true
  | _ => false

/-- `ast::ArgClause`: an unnamed bare value, a named `ident: value`
argument, or the field-init shorthand. -/
inductive ArgClause where
  | unnamed (e : Expr)
  | named (name : String) (e : Expr)
  | fieldInitShorthand (name : String)
deriving DecidableEq, Repr

/-- `get_env_variable_name`: the clause must be unnamed and its value a
string literal; return the decoded string. -/
def get_env_variable_name : ArgClause → Except Diagnostic String
  | ArgClause.unnamed e =>
    match e with
    | Expr.strLit v =>
      match v with
      | some s => Except.ok s
      | none => Except.error (Diagnostic.error "Failed to parse environment variable name")
    | _ => Except.error (Diagnostic.error "Expected environment variable name")
  | _ => Except.error (Diagnostic.error "Expected unnamed argument")

/-- `get_default_value`: the clause must be unnamed and its value a numeric
literal; return the literal's numeric value rendered in decimal. -/
def get_default_value : ArgClause → Except Diagnostic String
  | ArgClause.unnamed e =>
    match e with
    | Expr.numLit text =>
      match numeric_value text with
      | some n => Except.ok (bigint_to_string n)
      | none => Except.error (Diagnostic.error "Failed to parse numeric default")
    | _ => Except.error (Diagnostic.error "Expected numeric default")
  | _ => Except.error (Diagnostic.error "Expected unnamed default argument")

/-- `expand_env_macro`, from the point where the invocation has been parsed
into its argument clauses (`environ` is the process-environment snapshot
read by `std::env::var`). -/
def expand_env_macro (environ : String → Option String) :
    List ArgClause → Except Diagnostic String
  | [] => Except.error (Diagnostic.error "Please specify the environment variable name")
  | arg0 :: rest =>
    match get_env_variable_name arg0 with
    | Except.error d => Except.error d
    | Except.ok env_var_name =>
      match environ env_var_name with
      | some val =>
        match bigint_from_str val with
        | some numeric_val => Except.ok (bigint_to_string numeric_val)
        | none =>
          Except.error
            (Diagnostic.error ("Failed to parse numeric environment variable: " ++ val))
      | none =>
        match rest with
        | [arg1] => get_default_value arg1
        | _ =>
          Except.error
            (Diagnostic.error ("Environment variable " ++ env_var_name ++ " not set"))

/-- The `#[inline_macro] pub fn env`: package the expansion as a
`ProcMacroResult` — the tokens on success, an empty stream plus the single
diagnostic on failure. -/
def env (environ : String → Option String) (macro_args : List ArgClause) :
    ProcMacroResult :=
  match expand_env_macro environ macro_args with
  | Except.ok token_stream => ⟨token_stream, []⟩
  | Except.error d => ⟨"", [d]⟩

/-- Spec-side predicate: an optionally signed, non-empty run of decimal
digits with no separators or whitespace. -/
def validIntString (s : String) : Bool :=
  match s.data with
  | [] => false
  | c :: tl =>
    let ds := if c = '-' ∨ c = '+' then tl else c :: tl
    !ds.isEmpty && ds.all Char.isDigit

/-- Spec-side predicate: a canonical decimal numeral — digits only, no
redundant leading zero, and a `-` sign only on a nonzero value. -/
def isCanonicalNumeral (s : String) : Bool :=
  match s.data with
  | [] => false
  | c :: cs =>
    if c = '-' then !cs.isEmpty && cs.all Char.isDigit && !(cs.head? == some '0')
    else (c :: cs).all Char.isDigit && (!(c == '0') || cs.isEmpty)

/-- Reading a digit string back: the value accumulated by the parse loop. -/
def readDigits (ds : List Char) (acc : Nat) : Nat :=
  ds.foldl (fun a c => a * 10 + digitVal c) acc

/-! ### Character-level facts -/

theorem char_le_iff {a b : Char} : a ≤ b ↔ a.toNat ≤ b.toNat := by
  rw [Char.le_def, UInt32.le_def, BitVec.le_def]
  exact Iff.rfl

theorem isDigit_toNat {c : Char} (h : c.isDigit = true) :
    48 ≤ c.toNat ∧ c.toNat ≤ 57 := by
  simp only [Char.isDigit, Bool.and_eq_true, decide_eq_true_eq, ge_iff_le,
    Char.le_def, UInt32.le_def, BitVec.le_def, BitVec.toNat_ofNat] at h
  obtain ⟨h1, h2⟩ := h
  constructor <;> simpa [Char.toNat, UInt32.toNat] using ‹_›

theorem digitVal_of_isDigit {c : Char} (h : c.isDigit = true) :
    digitVal c = c.toNat - 48 ∧ digitVal c < 10 := by
  obtain ⟨h1, h2⟩ := isDigit_toNat h
  have h48 : '0'.toNat = 48 := rfl
  have h57 : '9'.toNat = 57 := rfl
  have hc : '0' ≤ c ∧ c ≤ '9' := ⟨char_le_iff.mpr (by omega), char_le_iff.mpr (by omega)⟩
  rw [digitVal, if_pos hc, h48]
  exact ⟨rfl, by omega⟩

theorem isDigit_ne_special {c : Char} (h : c.isDigit = true) :
    c ≠ '_' ∧ c ≠ '+' ∧ c ≠ '-' := by
  refine ⟨?_, ?_, ?_⟩ <;> intro he <;> rw [he] at h <;> exact absurd h (by decide)

theorem digitChar_isDigit {m : Nat} (h : m < 10) :
    (Nat.digitChar m).isDigit = true := by
  interval_cases m <;> decide

theorem digitVal_digitChar {m : Nat} (h : m < 10) :
    digitVal (Nat.digitChar m) = m := by
  interval_cases m <;> decide

theorem digitChar_ne_zero {m : Nat} (h : m < 10) (hm : m ≠ 0) :
    Nat.digitChar m ≠ '0' := by
  interval_cases m <;> simp_all <;> decide

/-! ### The decimal printer -/

theorem natDigitsAux_acc (fuel : Nat) : ∀ (n : Nat) (acc : List Char),
    natDigitsAux fuel n acc = natDigitsAux fuel n [] ++ acc := by
  induction fuel with
  | zero => intro n acc; simp [natDigitsAux]
  | succ fuel ih =>
    intro n acc
    simp only [natDigitsAux]
    split
    · simp
    · rw [ih (n / 10) (Nat.digitChar (n % 10) :: acc),
        ih (n / 10) [Nat.digitChar (n % 10)], List.append_assoc]
      simp

theorem natDigitsAux_extra (fuel₁ fuel₂ n : Nat) (acc : List Char)
    (h₁ : n < fuel₁) (h₂ : n < fuel₂) :
    natDigitsAux fuel₁ n acc = natDigitsAux fuel₂ n acc := by
  induction n using Nat.strong_induction_on generalizing fuel₁ fuel₂ acc with
  | _ n ih =>
    match fuel₁, fuel₂ with
    | fuel₁ + 1, fuel₂ + 1 =>
      simp only [natDigitsAux]
      split
      · rfl
      · exact ih (n / 10) (by omega) _ _ _ (by omega) (by omega)

theorem natDecimal_small {n : Nat} (h : n < 10) :
    natDecimal n = [Nat.digitChar n] := by
  simp [natDecimal, natDigitsAux, h]

theorem natDecimal_step {n : Nat} (h : 10 ≤ n) :
    natDecimal n = natDecimal (n / 10) ++ [Nat.digitChar (n % 10)] := by
  have h1 : natDecimal n = natDigitsAux n (n / 10) [Nat.digitChar (n % 10)] := by
    rw [natDecimal, natDigitsAux, if_neg (by omega)]
  rw [h1, natDigitsAux_acc,
    natDigitsAux_extra n (n / 10 + 1) (n / 10) [] (by omega) (by omega)]
  rfl

theorem natDecimal_ne_nil (n : Nat) : natDecimal n ≠ [] := by
  by_cases h : n < 10
  · rw [natDecimal_small h]; simp
  · rw [natDecimal_step (by omega)]; simp

theorem natDecimal_all_digits (n : Nat) :
    ∀ c ∈ natDecimal n, c.isDigit = true := by
  induction n using Nat.strong_induction_on with
  | _ n ih =>
    by_cases h : n < 10
    · rw [natDecimal_small h]
      intro c hc
      rw [List.mem_singleton] at hc
      exact hc ▸ digitChar_isDigit h
    · rw [natDecimal_step (by omega)]
      intro c hc
      rcases List.mem_append.mp hc with hc | hc
      · exact ih (n / 10) (by omega) c hc
      · rw [List.mem_singleton] at hc
        exact hc ▸ digitChar_isDigit (Nat.mod_lt _ (by omega))

theorem natDecimal_head {n : Nat} (h : n ≠ 0) :
    (natDecimal n).head? ≠ some '0' := by
  induction n using Nat.strong_induction_on with
  | _ n ih =>
    by_cases hn : n < 10
    · rw [natDecimal_small hn]
      simp only [List.head?_cons, ne_eq, Option.some.injEq]
      exact digitChar_ne_zero hn h
    · rw [natDecimal_step (by omega), List.head?_append_of_ne_nil _ (natDecimal_ne_nil _)]
      exact ih (n / 10) (by omega) (by omega)

theorem readDigits_append_singleton (ds : List Char) (c : Char) (a : Nat) :
    readDigits (ds ++ [c]) a = readDigits ds a * 10 + digitVal c := by
  simp [readDigits, List.foldl_append]

theorem readDigits_natDecimal (n : Nat) : readDigits (natDecimal n) 0 = n := by
  induction n using Nat.strong_induction_on with
  | _ n ih =>
    by_cases h : n < 10
    · rw [natDecimal_small h]
      simp [readDigits, digitVal_digitChar h]
    · rw [natDecimal_step (by omega), readDigits_append_singleton,
        ih (n / 10) (by omega), digitVal_digitChar (Nat.mod_lt _ (by omega))]
      omega

/-! ### The parse loop on pure digit strings -/

theorem fromStrDigitsAux_digits : ∀ (ds : List Char) (acc : Nat),
    (∀ c ∈ ds, c.isDigit = true) →
    fromStrDigitsAux 10 ds acc = some (readDigits ds acc) := by
  intro ds
  induction ds with
  | nil => intro acc _; simp [fromStrDigitsAux, readDigits]
  | cons c rest ih =>
    intro acc h
    have hc := h c (by simp)
    have hrest : ∀ c ∈ rest, c.isDigit = true := fun x hx => h x (by simp [hx])
    rw [fromStrDigitsAux, if_neg (isDigit_ne_special hc).1,
      if_pos (digitVal_of_isDigit hc).2, ih _ hrest]
    rfl

theorem biguint_digits (ds : List Char) (hne : ds ≠ [])
    (h : ∀ c ∈ ds, c.isDigit = true) :
    biguint_from_str_radix ds 10 = some (readDigits ds 0) := by
  match ds, hne with
  | c :: rest, _ =>
    have hc := h c (by simp)
    have hplus : stripOnePlus (c :: rest) = c :: rest := by
      rw [stripOnePlus.eq_def]
      split
      · rename_i heq
        exact absurd (List.cons.inj heq).1 (isDigit_ne_special hc).2.1
      · rfl
    rw [biguint_from_str_radix]
    simp only [hplus, List.isEmpty_cons, List.head?_cons]
    rw [if_neg (by simp), if_neg (by simpa using (isDigit_ne_special hc).1)]
    exact fromStrDigitsAux_digits _ _ h

theorem biguint_digits_plus (ds : List Char) (hne : ds ≠ [])
    (h : ∀ c ∈ ds, c.isDigit = true) :
    biguint_from_str_radix ('+' :: ds) 10 = some (readDigits ds 0) := by
  match ds, hne with
  | c :: rest, _ =>
    have hc := h c (by simp)
    have hplus : stripOnePlus ('+' :: c :: rest) = c :: rest := by
      rw [stripOnePlus]
      exact if_neg (by simpa using (isDigit_ne_special hc).2.1)
    rw [biguint_from_str_radix]
    simp only [hplus, List.isEmpty_cons, List.head?_cons]
    rw [if_neg (by simp), if_neg (by simpa using (isDigit_ne_special hc).1)]
    exact fromStrDigitsAux_digits _ _ h

/-! ### Sign-level parsing and the print/parse round trip -/

theorem bigint_from_str_radix_digits (ds : List Char) (hne : ds ≠ [])
    (h : ∀ c ∈ ds, c.isDigit = true) :
    bigint_from_str_radix ds 10 = some ((readDigits ds 0 : Nat) : Int) := by
  rw [bigint_from_str_radix.eq_def]
  split
  · exact absurd (h '-' (by simp)) (by decide)
  · rw [biguint_digits ds hne h]
    rfl

theorem bigint_from_str_radix_neg_digits (ds : List Char) (hne : ds ≠ [])
    (h : ∀ c ∈ ds, c.isDigit = true) :
    bigint_from_str_radix ('-' :: ds) 10 = some (-(readDigits ds 0 : Int)) := by
  match ds, hne with
  | c :: rest, _ =>
    have hc := h c (by simp)
    simp only [bigint_from_str_radix, List.head?_cons]
    rw [if_neg (by simpa using (isDigit_ne_special hc).2.1),
      biguint_digits _ (by simp) h]
    rfl

theorem bigint_to_string_data (n : Int) :
    (bigint_to_string n).data =
      if n < 0 then '-' :: natDecimal n.natAbs else natDecimal n.natAbs := by
  rw [bigint_to_string]
  split <;> rfl

theorem bigint_from_str_to_string (n : Int) :
    bigint_from_str (bigint_to_string n) = some n := by
  rw [bigint_from_str, bigint_to_string_data]
  by_cases hn : n < 0
  · rw [if_pos hn, bigint_from_str_radix_neg_digits _ (natDecimal_ne_nil _)
      (natDecimal_all_digits _), readDigits_natDecimal]
    congr 1
    omega
  · rw [if_neg hn, bigint_from_str_radix_digits _ (natDecimal_ne_nil _)
      (natDecimal_all_digits _), readDigits_natDecimal]
    congr 1
    omega

theorem bigint_to_string_ne_empty (n : Int) : bigint_to_string n ≠ "" := by
  intro h
  have hd := congrArg String.data h
  rw [bigint_to_string_data] at hd
  simp only [String.data] at hd
  by_cases hn : n < 0
  · rw [if_pos hn] at hd
    simp at hd
  · rw [if_neg hn] at hd
    exact natDecimal_ne_nil _ hd

theorem isCanonicalNumeral_to_string (n : Int) :
    isCanonicalNumeral (bigint_to_string n) = true := by
  rw [isCanonicalNumeral.eq_def, bigint_to_string_data]
  by_cases hn : n < 0
  · rw [if_pos hn]
    simp only []
    rw [if_pos trivial]
    have hnz : n.natAbs ≠ 0 := by omega
    have hhead := natDecimal_head hnz
    simp only [Bool.and_eq_true, Bool.not_eq_true']
    refine ⟨⟨by simpa using natDecimal_ne_nil _, ?_⟩, ?_⟩
    · simpa [List.all_eq_true] using natDecimal_all_digits n.natAbs
    · simpa using hhead
  · rw [if_neg hn]
    obtain ⟨c, rest, hcr⟩ : ∃ c rest, natDecimal n.natAbs = c :: rest := by
      cases hh : natDecimal n.natAbs with
      | nil => exact absurd hh (natDecimal_ne_nil _)
      | cons c rest => exact ⟨c, rest, rfl⟩
    rw [hcr]
    simp only []
    have hc : c.isDigit = true := natDecimal_all_digits _ c (by rw [hcr]; simp)
    rw [if_neg (isDigit_ne_special hc).2.2]
    simp only [Bool.and_eq_true]
    constructor
    · rw [← hcr]
      simpa [List.all_eq_true] using natDecimal_all_digits n.natAbs
    · by_cases h0 : n.natAbs = 0
      · have : natDecimal n.natAbs = ['0'] := by
          rw [h0]
          rfl
        rw [hcr] at this
        simp [List.cons.inj this]
      · have := natDecimal_head h0
        rw [hcr] at this
        simp only [List.head?_cons, ne_eq, Option.some.injEq] at this
        simp [this]

theorem valid_parse (s : String) (h : validIntString s = true) :
    ∃ n : Int, bigint_from_str s = some n := by
  rw [validIntString.eq_def] at h
  rw [bigint_from_str]
  cases hs : s.data with
  | nil => rw [hs] at h; simp at h
  | cons c tl =>
    rw [hs] at h
    simp only [Bool.and_eq_true, Bool.not_eq_true', List.isEmpty_eq_false,
      List.all_eq_true, decide_eq_true_eq] at h
    by_cases hsign : c = '-' ∨ c = '+'
    · rw [if_pos hsign] at h
      obtain ⟨hne, hdig⟩ := h
      rcases hsign with rfl | rfl
      · exact ⟨_, bigint_from_str_radix_neg_digits tl hne hdig⟩
      · have heq : bigint_from_str_radix ('+' :: tl) 10 = some ((readDigits tl 0 : Nat) : Int) := by
          rw [bigint_from_str_radix.eq_def]
          split
          · rename_i tail hteq
            exact absurd (List.cons.inj hteq).1 (by decide)
          · rw [biguint_digits_plus tl hne hdig]
            rfl
        exact ⟨_, heq⟩
    · rw [if_neg hsign] at h
      obtain ⟨-, hdig⟩ := h
      exact ⟨_, bigint_from_str_radix_digits (c :: tl) (by simp) hdig⟩

/-! ### Shape of every expansion outcome -/

theorem get_env_variable_name_error_shape {a : ArgClause} {d : Diagnostic}
    (h : get_env_variable_name a = Except.error d) : ∃ m, d = Diagnostic.error m := by
  rcases a with ⟨e⟩ | ⟨x, e⟩ | ⟨x⟩
  · rcases e with ⟨v⟩ | ⟨t⟩ | _
    · rcases v with _ | s
      · simp only [get_env_variable_name, Except.error.injEq] at h
        exact ⟨_, h.symm⟩
      · simp [get_env_variable_name] at h
    · simp only [get_env_variable_name, Except.error.injEq] at h
      exact ⟨_, h.symm⟩
    · simp only [get_env_variable_name, Except.error.injEq] at h
      exact ⟨_, h.symm⟩
  · simp only [get_env_variable_name, Except.error.injEq] at h
    exact ⟨_, h.symm⟩
  · simp only [get_env_variable_name, Except.error.injEq] at h
    exact ⟨_, h.symm⟩

theorem get_default_value_shape (a : ArgClause) :
    (∃ n : Int, get_default_value a = Except.ok (bigint_to_string n)) ∨
    (∃ m, get_default_value a = Except.error (Diagnostic.error m)) := by
  rcases a with ⟨e⟩ | ⟨x, e⟩ | ⟨x⟩
  · rcases e with ⟨v⟩ | ⟨t⟩ | _
    · exact Or.inr ⟨"Expected numeric default", rfl⟩
    · rcases hnv : numeric_value t with _ | n
      · exact Or.inr ⟨"Failed to parse numeric default", by simp [get_default_value, hnv]⟩
      · exact Or.inl ⟨n, by simp [get_default_value, hnv]⟩
    · exact Or.inr ⟨"Expected numeric default", rfl⟩
  · exact Or.inr ⟨"Expected unnamed default argument", rfl⟩
  · exact Or.inr ⟨"Expected unnamed default argument", rfl⟩

theorem expand_outcome_shape (environ : String → Option String) (args : List ArgClause) :
    (∃ n : Int, expand_env_macro environ args = Except.ok (bigint_to_string n)) ∨
    (∃ m : String, expand_env_macro environ args = Except.error (Diagnostic.error m)) := by
  match args with
  | [] => exact Or.inr ⟨"Please specify the environment variable name", rfl⟩
  | arg0 :: rest =>
    rcases hv : get_env_variable_name arg0 with d | name
    · obtain ⟨m, rfl⟩ := get_env_variable_name_error_shape hv
      exact Or.inr ⟨m, by simp [ expand_env_macro, hv]⟩
    · rcases he : environ name with _ | val
      · match rest with
        | [] =>
          exact Or.inr ⟨"Environment variable " ++ name ++ " not set",
            by simp [ expand_env_macro, hv, he]⟩
        | [arg1] =>
          rcases get_default_value_shape arg1 with ⟨n, hd⟩ | ⟨m, hd⟩
          · exact Or.inl ⟨n, by simp [ expand_env_macro, hv, he, hd]⟩
          · exact Or.inr ⟨m, by simp [ expand_env_macro, hv, he, hd]⟩
        | a1 :: a2 :: rest' =>
          exact Or.inr ⟨"Environment variable " ++ name ++ " not set",
            by simp [ expand_env_macro, hv, he]⟩
      · rcases hb : bigint_from_str val with _ | n
        · exact Or.inr ⟨"Failed to parse numeric environment variable: " ++ val,
            by simp [ expand_env_macro, hv, he, hb]⟩
        · exact Or.inl ⟨n, by simp [ expand_env_macro, hv, he, hb]⟩

/-! ### Environment fixtures -/

/-- Fixture: only `SOME_VAR` is set, to `"100"`. -/
def envSome : String → Option String :=
  fun s => if s = "SOME_VAR" then some "100" else none

/-- Fixture: no variable is set. -/
def envNone : String → Option String :=
  fun _ => none

/-! ### The claims -/

/-- C1: whenever the environment variable named by the first argument is set
to base-10 integer text, both `env!(name)` and `env!(name, default)` expand
to Success whose output is the canonical decimal numeral of the environment
value — the second clause (the default) is ignored entirely. -/
theorem env_set_value_precedence (environ : String → Option String)
    (name val : String) (n : Int) (c : ArgClause)
    (hset : environ name = some val) (hparse : bigint_from_str val = some n) :
    env environ [ArgClause.unnamed (Expr.strLit (some name))] = ⟨bigint_to_string n, []⟩ ∧
    env environ [ArgClause.unnamed (Expr.strLit (some name)), c] = ⟨bigint_to_string n, []⟩ ∧
    isCanonicalNumeral (bigint_to_string n) = true := by
  refine ⟨?_, ?_, isCanonicalNumeral_to_string n⟩ <;>
    simp [env, expand_env_macro, get_env_variable_name, hset, hparse]

theorem env_set_value_precedence_witness :
    envSome "SOME_VAR" = some "100" ∧ bigint_from_str "100" = some 100 ∧
    (env envSome [ArgClause.unnamed (Expr.strLit (some "SOME_VAR"))] =
        ⟨bigint_to_string 100, []⟩ ∧
      env envSome [ArgClause.unnamed (Expr.strLit (some "SOME_VAR")),
        ArgClause.unnamed (Expr.numLit "42")] = ⟨bigint_to_string 100, []⟩ ∧
      isCanonicalNumeral (bigint_to_string 100) = true) :=
  ⟨by decide, by decide,
    env_set_value_precedence envSome "SOME_VAR" "100" 100
      (ArgClause.unnamed (Expr.numLit "42")) (by decide) (by decide)⟩

/-- C2: with exactly two clauses and the variable absent, an unnamed numeric
literal default makes expansion succeed with the literal's numeric value in
canonical decimal form. -/
theorem default_used_when_unset (environ : String → Option String)
    (name txt : String) (n : Int)
    (hunset : environ name = none) (hnum : numeric_value txt = some n) :
    env environ [ArgClause.unnamed (Expr.strLit (some name)),
      ArgClause.unnamed (Expr.numLit txt)] = ⟨bigint_to_string n, []⟩ ∧
    isCanonicalNumeral (bigint_to_string n) = true := by
  refine ⟨?_, isCanonicalNumeral_to_string n⟩
  simp [env, expand_env_macro, get_env_variable_name, get_default_value, hunset, hnum]

theorem default_used_when_unset_witness :
    envNone "MISSING_VAR_xyz" = none ∧ numeric_value "42" = some 42 ∧
    bigint_to_string 42 = "42" ∧
    (env envNone [ArgClause.unnamed (Expr.strLit (some "MISSING_VAR_xyz")),
        ArgClause.unnamed (Expr.numLit "42")] = ⟨bigint_to_string 42, []⟩ ∧
      isCanonicalNumeral (bigint_to_string 42) = true) :=
  ⟨rfl, by decide, by decide,
    default_used_when_unset envNone "MISSING_VAR_xyz" "42" 42 rfl (by decide)⟩

/-- C3: with exactly one clause and the variable absent, expansion fails
with the single diagnostic "Environment variable <name> not set". -/
theorem not_set_failure (environ : String → Option String) (name : String)
    (h : environ name = none) :
    env environ [ArgClause.unnamed (Expr.strLit (some name))] =
      ⟨"", [Diagnostic.error ("Environment variable " ++ name ++ " not set")]⟩ := by
  simp [env, expand_env_macro, get_env_variable_name, h]

theorem not_set_failure_witness :
    envNone "MISSING_VAR_xyz" = none ∧
    env envNone [ArgClause.unnamed (Expr.strLit (some "MISSING_VAR_xyz"))] =
      ⟨"", [Diagnostic.error "Environment variable MISSING_VAR_xyz not set"]⟩ :=
  ⟨rfl, not_set_failure envNone "MISSING_VAR_xyz" rfl⟩

/-- C4: every caller-visible result is a valid Success/Failure pairing:
either a non-empty token stream with no diagnostics, or an empty token
stream with exactly one diagnostic of severity error. -/
theorem expansion_valid_pairing (environ : String → Option String)
    (args : List ArgClause) :
    ((env environ args).token_stream ≠ "" ∧ (env environ args).diagnostics = []) ∨
    ((env environ args).token_stream = "" ∧
      ∃ d, (env environ args).diagnostics = [d] ∧ d.severity = Severity.error) := by
  rcases expand_outcome_shape environ args with ⟨n, h⟩ | ⟨m, h⟩
  · left
    rw [env, h]
    exact ⟨bigint_to_string_ne_empty n, rfl⟩
  · right
    rw [env, h]
    exact ⟨rfl, Diagnostic.error m, rfl, rfl⟩

/-- C5 counterexample: a three-clause invocation with the variable set is
NOT a validation error — it expands to Success with output "100". -/
theorem arity_claim_counterexample :
    (env envSome [ArgClause.unnamed (Expr.strLit (some "SOME_VAR")),
        ArgClause.unnamed (Expr.numLit "1"),
        ArgClause.unnamed (Expr.numLit "2")]).token_stream = "100" ∧
    (env envSome [ArgClause.unnamed (Expr.strLit (some "SOME_VAR")),
        ArgClause.unnamed (Expr.numLit "1"),
        ArgClause.unnamed (Expr.numLit "2")]).diagnostics = [] := by
  decide

/-- C5 amended: zero clauses fail with the arity diagnostic, but clause
counts above two are not validated — expansion proceeds on the first clause
alone, so with the variable absent it produces the not-set failure (and with
it set, Success, as the counterexample shows). -/
theorem arity_amended (environ : String → Option String) (name : String)
    (c1 c2 : ArgClause) (rest : List ArgClause) (h : environ name = none) :
    env environ [] = ⟨"", [Diagnostic.error "Please specify the environment variable name"]⟩ ∧
    env environ (ArgClause.unnamed (Expr.strLit (some name)) :: c1 :: c2 :: rest) =
      ⟨"", [Diagnostic.error ("Environment variable " ++ name ++ " not set")]⟩ := by
  constructor
  · rfl
  · simp [env, expand_env_macro, get_env_variable_name, h]

theorem arity_amended_witness :
    envNone "SOME_VAR" = none ∧
    (env envNone [] =
        ⟨"", [Diagnostic.error "Please specify the environment variable name"]⟩ ∧
      env envNone [ArgClause.unnamed (Expr.strLit (some "SOME_VAR")),
        ArgClause.unnamed (Expr.numLit "1"), ArgClause.unnamed (Expr.numLit "2")] =
        ⟨"", [Diagnostic.error "Environment variable SOME_VAR not set"]⟩) :=
  ⟨rfl, arity_amended envNone "SOME_VAR" (ArgClause.unnamed (Expr.numLit "1"))
    (ArgClause.unnamed (Expr.numLit "2")) [] rfl⟩

/-- C6 counterexample: "0x2a" is not base-10 integer text, yet on the
default path it does not fail — the literal's numeric value is used and
expansion succeeds with "42". -/
theorem parse_error_claim_counterexample :
    validIntString "0x2a" = false ∧
    env envNone [ArgClause.unnamed (Expr.strLit (some "MISSING_VAR_xyz")),
      ArgClause.unnamed (Expr.numLit "0x2a")] = ⟨"42", []⟩ := by
  decide

/-- C6 amended: on the environment path, any value rejected by the base-10
big-integer parser fails with "Failed to parse numeric environment
variable: <s>" (the text embedded verbatim, origin identified); on the
default path the literal is converted via its parsed numeric value, and
when that fails the diagnostic is the fixed text "Failed to parse numeric
default", which does not embed the offending text. -/
theorem parse_error_amended (environ1 environ2 : String → Option String)
    (name1 name2 val txt : String)
    (h1 : environ1 name1 = some val) (h2 : bigint_from_str val = none)
    (h3 : environ2 name2 = none) (h4 : numeric_value txt = none) :
    env environ1 [ArgClause.unnamed (Expr.strLit (some name1))] =
      ⟨"", [Diagnostic.error ("Failed to parse numeric environment variable: " ++ val)]⟩ ∧
    env environ2 [ArgClause.unnamed (Expr.strLit (some name2)),
      ArgClause.unnamed (Expr.numLit txt)] =
      ⟨"", [Diagnostic.error "Failed to parse numeric default"]⟩ := by
  constructor
  · simp [env, expand_env_macro, get_env_variable_name, h1, h2]
  · simp [env, expand_env_macro, get_env_variable_name, get_default_value, h3, h4]

theorem parse_error_amended_witness :
    (fun _ => some "abc" : String → Option String) "SOME_VAR" = some "abc" ∧
    bigint_from_str "abc" = none ∧ envNone "V" = none ∧ numeric_value "0x" = none ∧
    (env (fun _ => some "abc") [ArgClause.unnamed (Expr.strLit (some "SOME_VAR"))] =
        ⟨"", [Diagnostic.error "Failed to parse numeric environment variable: abc"]⟩ ∧
      env envNone [ArgClause.unnamed (Expr.strLit (some "V")),
        ArgClause.unnamed (Expr.numLit "0x")] =
        ⟨"", [Diagnostic.error "Failed to parse numeric default"]⟩) :=
  ⟨rfl, by decide, rfl, by decide,
    parse_error_amended (fun _ => some "abc") envNone "SOME_VAR" "V" "abc" "0x"
      rfl (by decide) rfl (by decide)⟩

/-- C7: every valid integer string (optional sign, decimal digits, no
separators) parses, and re-parsing the printed normal form returns the same
value; the normal form is the canonical decimal numeral with no redundant
leading zeros. -/
theorem normalization_value_preserving (s : String) (h : validIntString s = true) :
    ∃ n : Int, bigint_from_str s = some n ∧
      bigint_from_str (bigint_to_string n) = some n ∧
      isCanonicalNumeral (bigint_to_string n) = true := by
  obtain ⟨n, hn⟩ := valid_parse s h
  exact ⟨n, hn, bigint_from_str_to_string n, isCanonicalNumeral_to_string n⟩

theorem normalization_value_preserving_witness :
    validIntString "007" = true ∧
    ∃ n : Int, bigint_from_str "007" = some n ∧
      bigint_from_str (bigint_to_string n) = some n ∧
      isCanonicalNumeral (bigint_to_string n) = true :=
  ⟨by decide, normalization_value_preserving "007" (by decide)⟩

/-- C8: a first clause whose expression is not a string literal fails with
"Expected environment variable name"; with the variable absent and two
clauses, a second clause whose expression is not a numeric literal fails
with "Expected numeric default". -/
theorem type_mismatch_diagnostics (environ : String → Option String)
    (e1 : Expr) (rest : List ArgClause) (name : String) (e2 : Expr)
    (h1 : e1.isStrLit = false) (h2 : environ name = none) (h3 : e2.isNumLit = false) :
    env environ (ArgClause.unnamed e1 :: rest) =
      ⟨"", [Diagnostic.error "Expected environment variable name"]⟩ ∧
    env environ [ArgClause.unnamed (Expr.strLit (some name)), ArgClause.unnamed e2] =
      ⟨"", [Diagnostic.error "Expected numeric default"]⟩ := by
  constructor
  · rcases e1 with v | t | _
    · simp [Expr.isStrLit] at h1
    · simp [env, expand_env_macro, get_env_variable_name]
    · simp [env, expand_env_macro, get_env_variable_name]
  · rcases e2 with v | t | _
    · simp [env, expand_env_macro, get_env_variable_name, get_default_value, h2]
    · simp [Expr.isNumLit] at h3
    · simp [env, expand_env_macro, get_env_variable_name, get_default_value, h2]

theorem type_mismatch_diagnostics_witness :
    (Expr.numLit "7").isStrLit = false ∧ envNone "V" = none ∧
    (Expr.strLit (some "x")).isNumLit = false ∧
    (env envNone [ArgClause.unnamed (Expr.numLit "7")] =
        ⟨"", [Diagnostic.error "Expected environment variable name"]⟩ ∧
      env envNone [ArgClause.unnamed (Expr.strLit (some "V")),
        ArgClause.unnamed (Expr.strLit (some "x"))] =
        ⟨"", [Diagnostic.error "Expected numeric default"]⟩) :=
  ⟨rfl, rfl, rfl,
    type_mismatch_diagnostics envNone (Expr.numLit "7") [] "V"
      (Expr.strLit (some "x")) rfl rfl rfl⟩

/-- C9 counterexample: a named second clause is rejected with the message
"Expected unnamed default argument", which is not the message "expected
unnamed argument" the claim states for every inspected clause. -/
theorem shape_error_claim_counterexample :
    env envNone [ArgClause.unnamed (Expr.strLit (some "V")),
      ArgClause.named "x" (Expr.numLit "1")] =
      ⟨"", [Diagnostic.error "Expected unnamed default argument"]⟩ ∧
    "Expected unnamed default argument" ≠ "expected unnamed argument" ∧
    "Expected unnamed default argument" ≠ "Expected unnamed argument" := by
  decide

/-- C9 amended: each named clause is rejected independently, but the two
validators carry different messages — "Expected unnamed argument" for the
first clause and "Expected unnamed default argument" for the second
(inspected when the variable is absent and two clauses are present). -/
theorem shape_error_amended (environ : String → Option String)
    (x1 x2 : String) (e1 e2 : Expr) (rest : List ArgClause) (name : String)
    (h : environ name = none) :
    env environ (ArgClause.named x1 e1 :: rest) =
      ⟨"", [Diagnostic.error "Expected unnamed argument"]⟩ ∧
    env environ [ArgClause.unnamed (Expr.strLit (some name)),
      ArgClause.named x2 e2] =
      ⟨"", [Diagnostic.error "Expected unnamed default argument"]⟩ := by
  constructor
  · simp [env, expand_env_macro, get_env_variable_name]
  · simp [env, expand_env_macro, get_env_variable_name, get_default_value, h]

theorem shape_error_amended_witness :
    envNone "V" = none ∧
    (env envNone [ArgClause.named "a" (Expr.numLit "1")] =
        ⟨"", [Diagnostic.error "Expected unnamed argument"]⟩ ∧
      env envNone [ArgClause.unnamed (Expr.strLit (some "V")),
        ArgClause.named "b" (Expr.numLit "2")] =
        ⟨"", [Diagnostic.error "Expected unnamed default argument"]⟩) :=
  ⟨rfl, shape_error_amended envNone "a" "b" (Expr.numLit "1") (Expr.numLit "2") [] "V" rfl⟩

/-- C10: with the variable absent, a hexadecimal default literal `0x2a`
expands to Success with the value rendered in decimal — output "42" — since
the default path converts via the literal's numeric value, not base-10
source text. -/
theorem hex_default_decimal_output (environ : String → Option String)
    (name : String) (h : environ name = none) :
    env environ [ArgClause.unnamed (Expr.strLit (some name)),
      ArgClause.unnamed (Expr.numLit "0x2a")] = ⟨"42", []⟩ := by
  have hnum : numeric_value "0x2a" = some 42 := by decide
  have hts : bigint_to_string 42 = "42" := by decide
  simp [env, expand_env_macro, get_env_variable_name, get_default_value, h, hnum, hts]

theorem hex_default_decimal_output_witness :
    envNone "MISSING_VAR_xyz" = none ∧
    env envNone [ArgClause.unnamed (Expr.strLit (some "MISSING_VAR_xyz")),
      ArgClause.unnamed (Expr.numLit "0x2a")] = ⟨"42", []⟩ :=
  ⟨rfl, hex_default_decimal_output envNone "MISSING_VAR_xyz" rfl⟩

end EnvMacro
